import Mathlib

/-!
Verification development for the DraCor MCP server (`server.py`).

The Python source is shallowly embedded: upstream HTTP endpoints become an
explicit environment of `Except`-valued lookups (`.error e` models the
`{"error": e}` dictionary that every handler returns from its blanket
`try/except`), Python `None` becomes `Option.none`, dictionaries obtained
from upstream JSON become structures whose fields are `Option`-typed exactly
where the code uses `dict.get`, and Python truthiness is modelled explicitly.
Rational numbers stand in for Python floats; on the concrete comparisons the
code performs (counts divided by counts, compared against 0.4/0.5/0.6 with
character-list sized denominators) the two agree.
-/

/-- One character of the character class of `VALID_NAME_PATTERN`
(`[a-zA-Z0-9_-]`, server.py line 26). -/
def allowedChar (c : Char) : Bool :=
  ('a' ≤ c && c ≤ 'z') || ('A' ≤ c && c ≤ 'Z') || ('0' ≤ c && c ≤ '9') ||
    c == '_' || c == '-'

/-- Python `re.match(r'^[a-zA-Z0-9_-]+$', s)` as a Boolean.  In Python's `re`
the `$` anchor matches at the end of the string *or just before a newline at
the end of the string*, so the pattern also accepts a nonempty run of allowed
characters followed by one final `'\n'`. -/
def reNameMatch (s : String) : Bool :=
  let cs := s.data
  (!cs.isEmpty && cs.all allowedChar) ||
    (cs.getLast? == some '\n' && !cs.dropLast.isEmpty && cs.dropLast.all allowedChar)

/-- `validate_name` (server.py lines 32-38): empty strings are rejected first
(`if not name`), then strings failing `VALID_NAME_PATTERN.match`, and a
passing string is returned unchanged.  `.error` models the raised
`ValueError`. -/
def validate_name (name : String) (param_name : String) : Except String String :=
  if name = "" then
    .error (param_name ++ " cannot be empty")
  else if !(reNameMatch name) then
    .error ("Invalid " ++ param_name ++ ": only alphanumeric, hyphens, underscores allowed")
  else
    .ok name

/-- Calling `validate_name` with a value that may be Python `None` (as
`search_plays` does with `corpus.get("name")` / `play.get("name")`): `None`
is falsy, so `if not name` raises the "cannot be empty" error. -/
def validate_opt_name (name : Option String) (param_name : String) : Except String String :=
  match name with
  | none => .error (param_name ++ " cannot be empty")
  | some s => validate_name s param_name

/-- Modelled from the spec: the repository's Wikidata-id validator
`validate_wikidata_id` is exercised by `test_fixes.py` but is absent from
`src/dracor-mcp-server/server.py`; per spec section 4.1 it accepts exactly the
strings matching `^Q[0-9]+$` and raises an invalid-argument error otherwise. -/
def validate_wikidata_id (wid : String) : Except String String :=
  match wid.data with
  | 'Q' :: ds =>
    if !ds.isEmpty && ds.all (fun c => '0' ≤ c && c ≤ '9') then .ok wid
    else .error "Invalid wikidata_id: must match Q followed by one or more digits"
  | _ => .error "Invalid wikidata_id: must match Q followed by one or more digits"

/-- Fuel-driven model of CPython `str.count`: scan left to right, and on a
match advance past the whole (nonempty) needle, so occurrences are counted
without overlap.  Fuel bounds the number of scan steps; each step consumes at
least one haystack character, so `hay.length + 1` fuel is always enough. -/
def pyCountFuel : Nat → List Char → List Char → Nat
  | 0, _, _ => 0
  | fuel + 1, n, h =>
    if !n.isEmpty && n.isPrefixOf h then
      1 + pyCountFuel fuel n (h.drop n.length)
    else
      match h with
      | [] => 0
      | _ :: t => pyCountFuel fuel n t

/-- Python `hay.count(needle)` for a nonempty needle. -/
def pyCount (needle hay : String) : Nat :=
  pyCountFuel (hay.data.length + 1) needle.data hay.data

/-- `get_full_text` (server.py line 245): the synthesized plain text is
`f"DIALOGUE:\n\n{spoken}\n\nSTAGE DIRECTIONS:\n\n{stage}"`. -/
def assembleFullText (dialogue stage : String) : String :=
  "DIALOGUE:\n\n" ++ dialogue ++ "\n\nSTAGE DIRECTIONS:\n\n" ++ stage

/-- The `dialogue_to_direction_ratio` computed by `analyze_full_text`
(server.py lines 828-829):
`text.count("\n\nDIALOGUE:") / (text.count("\n\nSTAGE DIRECTIONS:") or 1)`.
The result is wrapped in `some` because the value stored in the analysis
dictionary is always a number in this code path — the `or 1` coercion
replaces a zero denominator by 1, it never yields `None`. -/
def ratioDialogueDirection (text : String) : Option ℚ :=
  let dial := pyCount "\n\nDIALOGUE:" text
  let stage := pyCount "\n\nSTAGE DIRECTIONS:" text
  some ((dial : ℚ) / (if stage = 0 then (1 : ℚ) else (stage : ℚ)))

/-! ### Data model (upstream DTOs, `Option` where the code uses `dict.get`) -/

/-- An entry of a play's `authors` list. -/
structure Author where
  name : Option String
  country : Option String
deriving DecidableEq, Repr

/-- A play record as consumed by `search_plays` (the fields the code reads). -/
structure Play where
  name : Option String
  title : Option String
  subtitle : Option String
  originalTitle : Option String
  originalLanguage : Option String
  writtenIn : Option String
  printedIn : Option String
  authors : List Author
  yearNormalized : Option Int
  yearWritten : Option Int
  yearPrinted : Option Int
deriving DecidableEq, Repr

/-- A character record (the fields the code reads). -/
structure Character where
  id : Option String
  name : Option String
  gender : Option String
deriving DecidableEq, Repr

/-- An entry of the `corpora` listing. -/
structure Corpus where
  name : Option String
deriving DecidableEq, Repr

/-- The `corpora/{c}` response (only its `plays` field is read). -/
structure CorpusDetail where
  plays : List Play
deriving DecidableEq, Repr

/-- The `corpora/{c}/plays/{p}` response (search only reads `characters`). -/
structure PlayDetail where
  characters : List Character
deriving DecidableEq, Repr

/-- The upstream API: one `Except`-valued lookup per endpoint family.
`.error e` models any `requests`/HTTP failure whose stringification is `e`. -/
structure Env where
  corpora : Except String (List Corpus)
  corpus : String → Except String CorpusDetail
  characters : String → String → Except String (List Character)
  play : String → String → Except String PlayDetail
  characterPlays : String → Except String (List String)

/-! ### Resource accessors (server.py lines 78-150, 266-273).
Each returns `.ok payload` for the reshaped success dictionary and `.error e`
for the `{"error": e}` dictionary produced by the handler's `try/except`. -/

/-- `get_corpora` (lines 78-87). -/
def get_corpora (env : Env) : Except String (List Corpus) :=
  env.corpora

/-- `get_corpus` (lines 89-97): validates, then passes `corpora/{c}` through. -/
def get_corpus (env : Env) (corpus_name : Option String) : Except String CorpusDetail := do
  let c ← validate_opt_name corpus_name "corpus_name"
  env.corpus c

/-- `get_plays` (lines 109-117): validates, fetches `corpora/{c}`, and returns
its `plays` field (`corpus.get("plays", [])`). -/
def get_plays (env : Env) (corpus_name : Option String) : Except String (List Play) := do
  let c ← validate_opt_name corpus_name "corpus_name"
  let detail ← env.corpus c
  pure detail.plays

/-- `get_play` (lines 119-128). -/
def get_play (env : Env) (corpus_name play_name : Option String) : Except String PlayDetail := do
  let c ← validate_opt_name corpus_name "corpus_name"
  let p ← validate_opt_name play_name "play_name"
  env.play c p

/-- `get_characters` (lines 141-150). -/
def get_characters (env : Env) (corpus_name play_name : Option String) : Except String (List Character) := do
  let c ← validate_opt_name corpus_name "corpus_name"
  let p ← validate_opt_name play_name "play_name"
  env.characters c p

/-- `get_plays_with_character` (lines 266-273): fetches `character/{id}`
directly — the body performs no validation of `wikidata_id` whatsoever. -/
def get_plays_with_character (env : Env) (wikidata_id : String) : Except String (List String) :=
  env.characterPlays wikidata_id

/-! ### search_plays (server.py lines 276-472) -/

/-- Structural Boolean infix test on lists (Python `in` on strings). -/
def pyInList : List Char → List Char → Bool
  | n, [] => n.isEmpty
  | n, c :: t => n.isPrefixOf (c :: t) || pyInList n t

/-- Python substring test `needle in hay`. -/
def pyInStr (needle hay : String) : Bool :=
  pyInList needle.data hay.data

/-- Python `s.lower()`, as a structural map over the character data (Lean's
`Char.toLower` lowers the ASCII range; DraCor identifiers are ASCII). -/
def pyToLower (s : String) : String :=
  ⟨s.data.map Char.toLower⟩

/-- Python truthiness of an optional string (`None` and `""` are falsy). -/
def truthyStr (o : Option String) : Bool :=
  match o with
  | none => false
  | some s => !(s == "")

/-- Python truthiness of an optional int (`None` and `0` are falsy). -/
def truthyInt (o : Option Int) : Bool :=
  match o with
  | none => false
  | some v => !(v == 0)

/-- Python `" ".join(l)`. -/
def joinSpace (l : List String) : String :=
  String.intercalate " " l

/-- The lowered searchable text of the general `query` filter (lines 337-342). -/
def searchableText (p : Play) : String :=
  ((p.title.getD "") ++ " " ++
    joinSpace (p.authors.map (fun a => a.name.getD "")) ++ " " ++
    (p.subtitle.getD "") ++ " " ++ (p.originalTitle.getD "")) |> pyToLower

/-- The lowered country text of the `country` filter (lines 349-353). -/
def countryText (p : Play) : String :=
  ((p.writtenIn.getD "") ++ " " ++ (p.printedIn.getD "") ++ " " ++
    joinSpace (p.authors.map (fun a => a.country.getD ""))) |> pyToLower

/-- `play.get("yearNormalized") or play.get("yearWritten") or ... or 0`:
Python `or` takes the first *truthy* operand, so `None` and `0` both fall
through. -/
def orYear (a : Option Int) (b : Int) : Int :=
  match a with
  | some v => if v == 0 then b else v
  | none => b

/-- The resolved `play_year` of server.py line 371. -/
def resolvedYear (yn yw yp : Option Int) : Int :=
  orYear yn (orYear yw (orYear yp 0))

/-- The year-range filter body (server.py lines 369-377), given that it is
reached: `is_match` survives unless a truthy bound is violated. -/
def yearFilterStep (year_from year_to : Option Int) (yn yw yp : Option Int) : Bool :=
  let play_year := resolvedYear yn yw yp
  let failFrom :=
    match year_from with
    | some f => !(f == 0) && decide (play_year < f)
    | none => false
  let failTo :=
    match year_to with
    | some t => !(t == 0) && decide (play_year > t)
    | none => false
  !(failFrom || failTo)

/-- The arguments of the `search_plays` tool (all default to `None`). -/
structure SearchArgs where
  query : Option String := none
  corpus_name : Option String := none
  character_name : Option String := none
  country : Option String := none
  language : Option String := none
  author : Option String := none
  year_from : Option Int := none
  year_to : Option Int := none
  gender_filter : Option String := none
deriving DecidableEq, Repr

/-- The `query` filter block (server.py lines 336-344). -/
def stepQuery (a : SearchArgs) (play : Play) (m : Bool) : Bool :=
  match a.query with
  | some q => if !(q == "") && m then pyInStr (pyToLower q) (searchableText play) else m
  | none => m

/-- The `country` filter block (lines 348-356). -/
def stepCountry (a : SearchArgs) (play : Play) (m : Bool) : Bool :=
  match a.country with
  | some co => if !(co == "") && m then pyInStr (pyToLower co) (countryText play) else m
  | none => m

/-- The `language` filter block (lines 359-361). -/
def stepLanguage (a : SearchArgs) (play : Play) (m : Bool) : Bool :=
  match a.language with
  | some l =>
    if !(l == "") && m then pyInStr (pyToLower l) (pyToLower (play.originalLanguage.getD ""))
    else m
  | none => m

/-- The `author` filter block (lines 364-367). -/
def stepAuthor (a : SearchArgs) (play : Play) (m : Bool) : Bool :=
  match a.author with
  | some au =>
    if !(au == "") && m then
      (play.authors.map (fun x => pyToLower (x.name.getD ""))).any (fun nm => pyInStr (pyToLower au) nm)
    else m
  | none => m

/-- The year-range filter block (lines 370-377). -/
def stepYear (a : SearchArgs) (play : Play) (m : Bool) : Bool :=
  if (truthyInt a.year_from || truthyInt a.year_to) && m then
    yearFilterStep a.year_from a.year_to play.yearNormalized play.yearWritten play.yearPrinted
  else m

/-- The `character_name` filter block (lines 380-400): a failed character
fetch clears `is_match` ("we assume it is not a match"). -/
def stepCharacter (env : Env) (a : SearchArgs) (corpus_name : Option String)
    (play : Play) (m : Bool) : Bool :=
  match a.character_name with
  | some chn =>
    if !(chn == "") && m then
      match get_characters env corpus_name play.name with
      | .ok chars => chars.any (fun c => pyInStr (pyToLower chn) (pyToLower (c.name.getD "")))
      | .error _ => false
    else m
  | none => m

/-- The `gender_filter` block (lines 403-425): a failed character fetch
leaves `is_match` untouched ("we keep it as a match"). -/
def stepGender (env : Env) (a : SearchArgs) (corpus_name : Option String)
    (play : Play) (m : Bool) : Bool :=
  match a.gender_filter with
  | some g =>
    if !(g == "") && m then
      match get_characters env corpus_name play.name with
      | .ok chars =>
        let male_count := (chars.filter (fun c => c.gender == some "MALE")).length
        let female_count := (chars.filter (fun c => c.gender == some "FEMALE")).length
        let total := male_count + female_count
        if total > 0 then
          let female_ratio : ℚ := (female_count : ℚ) / (total : ℚ)
          if g == "female_dominated" && decide (female_ratio ≤ 1/2) then false
          else if g == "male_dominated" && decide (female_ratio ≥ 1/2) then false
          else if g == "balanced" && (decide (female_ratio < 2/5) || decide (female_ratio > 3/5)) then false
          else m
        else m
      | .error _ => m
    else m
  | none => m

/-- The per-play filter pipeline of `search_plays` (server.py lines 331-425):
`is_match` starts `True` and each specified (truthy) filter may clear it.
`corpus_name` is the loop-shadowed variable holding the current corpus's
`name`. -/
def playIsMatch (env : Env) (a : SearchArgs) (corpus_name : Option String) (play : Play) : Bool :=
  stepGender env a corpus_name play
    (stepCharacter env a corpus_name play
      (stepYear a play
        (stepAuthor a play
          (stepLanguage a play
            (stepCountry a play
              (stepQuery a play true))))))

/-- Python `str(x)` on a value that may be `None` (used in f-strings). -/
def pyStrOfOpt (o : Option String) : String :=
  match o with
  | none => "None"
  | some s => s

/-- Python `str(x)` on an optional int. -/
def pyStrOfOptInt (o : Option Int) : String :=
  match o with
  | none => "None"
  | some v => toString v

/-- An entry of `top_results` (server.py lines 443-452). -/
structure TopEntry where
  corpus : Option String
  play_name : Option String
  title : Option String
  author : Option String
  year : Option Int
  language : Option String
  characters : Nat
  link : String
deriving DecidableEq, Repr

/-- Builds a `top_results` entry (lines 443-452); `author` is the first
author's `name` when the author list is truthy, else the string "Unknown". -/
def mkTopEntry (corpus_name : Option String) (play : Play) (info : PlayDetail) : TopEntry :=
  { corpus := corpus_name
    play_name := play.name
    title := play.title
    author := match play.authors with | [] => some "Unknown" | a0 :: _ => a0.name
    year := play.yearNormalized
    language := play.originalLanguage
    characters := info.characters.length
    link := "https://dracor.org/" ++ pyStrOfOpt corpus_name ++ "/" ++ pyStrOfOpt play.name }

/-- The mutable state of the search loops: `results`, `detailed_results`, and
the function-scoped variable `corpus_name`, which line 323 re-assigns on every
corpus iteration (shadowing the caller's argument). -/
structure SearchState where
  results : List (Option String × Play)
  detailed : List TopEntry
  cnVar : Option String
deriving DecidableEq, Repr

/-- The body of the inner play loop (server.py lines 331-454). -/
def processPlay (env : Env) (a : SearchArgs) (corpus_name : Option String)
    (st : SearchState) (play : Play) : SearchState :=
  if playIsMatch env a corpus_name play then
    let results := st.results ++ [(corpus_name, play)]
    let detailed :=
      if st.detailed.length < 5 then
        match get_play env corpus_name play.name with
        | .ok info => st.detailed ++ [mkTopEntry corpus_name play info]
        | .error _ => st.detailed
      else st.detailed
    { results := results, detailed := detailed, cnVar := st.cnVar }
  else st

/-- The body of the outer corpus loop (server.py lines 322-454): first
`corpus_name = corpus.get("name")`, then `get_plays`; a failed plays fetch
hits `continue`, leaving only the shadowed variable updated. -/
def processCorpus (env : Env) (a : SearchArgs) (st : SearchState) (corpus : Corpus) : SearchState :=
  let st := { st with cnVar := corpus.name }
  match get_plays env corpus.name with
  | .error _ => st
  | .ok plays => plays.foldl (processPlay env a corpus.name) st

/-- The `filters_applied` dictionary (server.py lines 460-469). -/
structure FiltersApplied where
  query : Option String
  corpus_name : Option String
  character_name : Option String
  country : Option String
  language : Option String
  author : Option String
  year_range : Option String
  gender_filter : Option String
deriving DecidableEq, Repr

/-- The success payload of `search_plays` (server.py lines 456-470). -/
structure SearchOk where
  count : Nat
  results : List (Option String × Play)
  top_results : List TopEntry
  filters_applied : FiltersApplied
deriving DecidableEq, Repr

/-- `search_plays` (server.py lines 276-472).  Note that the `corpus_name`
slot of `filters_applied` is the final value of the loop-shadowed variable
(`st.cnVar`), not the caller's argument. -/
def search_plays (env : Env) (a : SearchArgs) : Except String SearchOk :=
  match get_corpora env with
  | .error e => .error e
  | .ok all_corpora =>
    let target_corpora :=
      match a.corpus_name with
      | some cq =>
        if !(cq == "") then
          all_corpora.filter (fun (corp : Corpus) => pyInStr (pyToLower cq) (pyToLower (corp.name.getD "")))
        else all_corpora
      | none => all_corpora
    let st := target_corpora.foldl (processCorpus env a)
      { results := [], detailed := [], cnVar := a.corpus_name }
    .ok { count := st.results.length
          results := st.results
          top_results := st.detailed
          filters_applied :=
            { query := a.query
              corpus_name := st.cnVar
              character_name := a.character_name
              country := a.country
              language := a.language
              author := a.author
              year_range :=
                if truthyInt a.year_from || truthyInt a.year_to then
                  some (pyStrOfOptInt a.year_from ++ "-" ++ pyStrOfOptInt a.year_to)
                else none
              gender_filter := a.gender_filter } }

/-! ### analyze_character_relations: CSV relation construction
(server.py lines 533-565 and the `strongestRelations` slice at line 611) -/

/-- Digit run to a natural number. -/
def digitsToNat (ds : List Char) : Nat :=
  ds.foldl (fun acc c => acc * 10 + (c.toNat - 48)) 0

/-- Python `int(s)` on a decimal string: surrounding whitespace is stripped,
an optional sign is allowed, then one or more digits; anything else raises
`ValueError`, modelled as `none`.  (Python also accepts digit-grouping
underscores and non-ASCII digits; CSV weight columns contain neither.) -/
def pyIntParse (s : String) : Option Int :=
  match ((s.data.dropWhile Char.isWhitespace).reverse.dropWhile Char.isWhitespace).reverse with
  | '+' :: ds => if !ds.isEmpty && ds.all Char.isDigit then some (digitsToNat ds) else none
  | '-' :: ds => if !ds.isEmpty && ds.all Char.isDigit then some (-(digitsToNat ds : Int)) else none
  | ds => if !ds.isEmpty && ds.all Char.isDigit then some (digitsToNat ds) else none

/-- One relation dictionary of `analyze_character_relations` (lines 556-562). -/
structure RelationEdge where
  source : String
  source_id : String
  target : String
  target_id : String
  weight : Int
deriving DecidableEq, Repr

/-- The name-lookup loop of lines 548-554: `source_name` starts as `None` and
is overwritten with `char.get("name")` on every character whose `id` matches,
so the LAST matching character wins (and may deposit `None`). -/
def resolveName (characters : List Character) (cid : String) : Option String :=
  characters.foldl (fun acc c => if c.id == some cid then c.name else acc) none

/-- `source_name or source`: Python `or` falls through on `None` and `""`. -/
def displayName (resolved : Option String) (cid : String) : String :=
  match resolved with
  | some n => if n == "" then cid else n
  | none => cid

/-- One CSV data row (lines 539-562): kept only when it has at least 4
columns; columns 0 and 2 are ids, column 3 the weight (`int(...)`, defaulting
to 0 on `ValueError`). -/
def mkRelationRow (characters : List Character) (row : List String) : Option RelationEdge :=
  match row with
  | src :: _ :: tgt :: w :: _ =>
    some { source := displayName (resolveName characters src) src
           source_id := src
           target := displayName (resolveName characters tgt) tgt
           target_id := tgt
           weight := (pyIntParse w).getD 0 }
  | _ => none

/-- Lines 534-562: all relations parsed from the CSV rows, header skipped. -/
def relationsFromCsv (rows : List (List String)) (characters : List Character) : List RelationEdge :=
  (rows.drop 1).filterMap (mkRelationRow characters)

/-- Line 565: `relations.sort(key=lambda x: x.get("weight", 0), reverse=True)`
— a stable descending sort by weight. -/
def sortedRelations (rows : List (List String)) (characters : List Character) : List RelationEdge :=
  (relationsFromCsv rows characters).mergeSort (fun a b => decide (b.weight ≤ a.weight))

/-- Line 611: `"strongestRelations": relations[:10]`. -/
def strongestRelations (rows : List (List String)) (characters : List Character) : List RelationEdge :=
  (sortedRelations rows characters).take 10

/-- Spec-side resolution for comparison: the name of THE character whose id
equals the CSV id (the first such), used when present and non-empty,
otherwise the raw id. -/
def displaySpec (characters : List Character) (cid : String) : String :=
  match characters.find? (fun c => c.id == some cid) with
  | some c => displayName c.name cid
  | none => cid

/-! ### Prompt templates (server.py lines 837-1054).
Python f-strings are embedded as explicit concatenations; apostrophes inside
the literals are written with the `\x27` escape. -/

/-- `analyze_play` prompt (lines 837-860). -/
def analyze_play (corpus_name play_name : String) : String :=
"
    You are a drama analysis expert who can help analyze plays from the DraCor (Drama Corpora Project) database.

    You have access to the following play:

    Corpus: " ++ corpus_name ++ "
    Play: " ++ play_name ++ "

    Analyze this play in terms of:
    1. Basic information (title, author, year)
    2. Structure (acts, scenes)
    3. Character relationships
    4. Key metrics and statistics

    Please provide a comprehensive analysis including:
    - Historical context of the play
    - Structural analysis
    - Character analysis
    - Network analysis (how characters relate to each other)
    - Notable aspects of this play compared to others from the same period
    "

/-- `character_analysis` prompt (lines 862-881). -/
def character_analysis (corpus_name play_name character_id : String) : String :=
"
    You are a drama character analysis expert who can help analyze characters from plays in the DraCor database.

    You have access to the following character:

    Corpus: " ++ corpus_name ++ "
    Play: " ++ play_name ++ "
    Character: " ++ character_id ++ "

    Analyze this character in terms of:
    1. Basic information (name, gender)
    2. Importance in the play (based on speech counts, words spoken)
    3. Relationships with other characters
    4. Character development throughout the play

    Please provide a comprehensive character analysis that could help researchers or students understand this character better.
    "

/-- `network_analysis` prompt (lines 883-902). -/
def network_analysis (corpus_name play_name : String) : String :=
"
    You are a network analysis expert who can help analyze character networks from plays in the DraCor database.

    You have access to the following play network:

    Corpus: " ++ corpus_name ++ "
    Play: " ++ play_name ++ "

    Analyze this play\x27s character network in terms of:
    1. Overall network structure and density
    2. Central characters (highest degree, betweenness)
    3. Character communities or groups
    4. Strongest and weakest relationships
    5. How the network structure relates to the themes of the play

    Please provide a comprehensive network analysis that could help researchers understand the social dynamics in this play.
    "

/-- `comparative_analysis` prompt (lines 904-928). -/
def comparative_analysis (corpus_name1 play_name1 corpus_name2 play_name2 : String) : String :=
"
    You are a drama analysis expert who can help compare plays from the DraCor database.

    You have access to the following two plays:

    Play 1:
    Corpus: " ++ corpus_name1 ++ "
    Play: " ++ play_name1 ++ "

    Play 2:
    Corpus: " ++ corpus_name2 ++ "
    Play: " ++ play_name2 ++ "

    Compare these plays in terms of:
    1. Basic information (title, author, year)
    2. Structure (acts, scenes, length)
    3. Character count and dynamics
    4. Network complexity and density
    5. Historical context and significance

    Please provide a comprehensive comparative analysis that highlights similarities and differences between these plays.
    "

/-- `gender_analysis` prompt (lines 930-947). -/
def gender_analysis (corpus_name play_name : String) : String :=
"
    You are a scholar specializing in gender studies and dramatic literature. You\x27ve been asked to analyze gender representation in a drama.

    Corpus: " ++ corpus_name ++ "
    Play: " ++ play_name ++ "

    Please analyze the play in terms of:
    1. Gender distribution of characters
    2. Speaking time and importance of male vs. female characters
    3. Relationships between characters of different genders
    4. Historical context of gender representation in this period
    5. Notable aspects of gender portrayal in this play

    Your analysis should consider both quantitative data (number of characters, speaking lines) and qualitative aspects (power dynamics, character development).
    "

/-- `historical_context` prompt (lines 949-967). -/
def historical_context (corpus_name play_name : String) : String :=
"
    You are a theater historian who specializes in putting dramatic works in their historical context.

    Corpus: " ++ corpus_name ++ "
    Play: " ++ play_name ++ "

    Please provide a detailed analysis of the historical context of this play, including:
    1. Political and social climate when the play was written
    2. Theatrical conventions of the period
    3. How contemporary events might have influenced the play
    4. Reception of the play when it was first performed
    5. The play\x27s significance in the author\x27s body of work
    6. How the play reflects or challenges the values of its time

    Your analysis should help modern readers and scholars understand the play within its original historical framework.
    "

/-- `full_text_analysis_prompt` (lines 969-996): a plain (non-f) template
whose `{...}` placeholders are returned literally. -/
def full_text_analysis_prompt : String :=
"
    I\x27ll analyze the full text of {play_title} by {author} from the {corpus_name} corpus.

    ## Basic Information
    - Title: {play_title}
    - Author: {author}
    - Written: {written_year}
    - Premiere: {premiere_date}

    ## Full Text Analysis

    {analysis}

    ## Key Themes and Motifs

    {themes}

    ## Language and Style

    {style}

    ## Historical and Cultural Context

    {context}
    "

/-- `character_tagging_analysis` (lines 998-1054).  Python defaults are
`corpus_name="dutch"`, `play_name=None`.  The first branch is an f-string;
when `play_name` is falsy the body is REPLACED by a plain (non-f) string
whose `{corpus_name}` placeholders are returned literally, uninterpolated. -/
def character_tagging_analysis (corpus_name : String) (play_name : Option String) : String :=
  let prompt_text :=
"
    Your task is to analyze \x27" ++ pyStrOfOpt play_name ++ "\x27 from the " ++ corpus_name ++ " corpus in the DraCor database to identify character ID tagging issues. Specifically:

    1. Perform a comprehensive analysis of:
       * Character relations
       * Full text (especially TEI format)
       * Play structure

    2. Identify all possible inconsistencies in character ID tagging, including:
       * Spelling variations of character names
       * Character name confusion or conflation
       * Historical spelling variants
       * Discrepancies between character IDs and stage directions

    3. Create a detailed report of potential character ID tagging errors in a structured table format with the following columns:
       * Text ID: " ++ corpus_name ++ "/" ++ pyStrOfOpt play_name ++ "
       * Current character ID used in the database
       * Problematic variant(s) found in the text
       * Type of error (spelling, variation, confusion, etc.)
       * Explanation of the issue
    "
  if !(truthyStr play_name) then
"
        Your task is to analyze a play from the {corpus_name} corpus in the DraCor database to identify character ID tagging issues.

        First, use the search_plays tool to find available plays in the {corpus_name} corpus, then select one for analysis.

        Once you\x27ve selected a play, perform a comprehensive analysis of:
        1. Character relations
        2. Full text (especially TEI format)
        3. Play structure

        Identify all possible inconsistencies in character ID tagging, including:
        * Spelling variations of character names
        * Character name confusion or conflation
        * Historical spelling variants
        * Discrepancies between character IDs and stage directions

        Create a detailed report of potential character ID tagging errors in a structured table format with the following columns:
        * Text ID (unique identifier for the play)
        * Current character ID used in the database
        * Problematic variant(s) found in the text
        * Type of error (spelling, variation, confusion, etc.)
        * Explanation of the issue
        "
  else prompt_text

/-! ### General lemmas about the string primitives -/

/-- `pyInList` decides list infixhood. -/
theorem pyInList_eq_true_iff (n : List Char) : ∀ h : List Char, pyInList n h = true ↔ n <:+: h := by
  intro h
  induction h with
  | nil => simp [pyInList, List.isEmpty_iff]
  | cons c t ih => simp [pyInList, ih, List.infix_cons_iff]

/-- A nonempty prefix pins down the head of the larger list. -/
theorem head?_eq_of_prefix {α : Type} {l m : List α} (h : l <+: m) (hl : l ≠ []) :
    m.head? = l.head? := by
  obtain ⟨t, rfl⟩ := h
  cases l with
  | nil => exact absurd rfl hl
  | cons a l' => rfl

/-- If the needle occurs nowhere in the haystack, `pyCountFuel` returns 0 at
any fuel. -/
theorem pyCountFuel_eq_zero {n : List Char} :
    ∀ (fuel : Nat) (h : List Char), ¬ n <:+: h → pyCountFuel fuel n h = 0 := by
  intro fuel
  induction fuel with
  | zero => intro h _; rfl
  | succ f ih =>
    intro h hni
    have hp : n.isPrefixOf h = false := by
      cases hb : n.isPrefixOf h
      · rfl
      · exact absurd ( List.IsPrefix.isInfix ( List.isPrefixOf_iff_prefix.mp hb)) hni
    cases h with
    | nil => simp [pyCountFuel, hp]
    | cons c t =>
      have h2 : ¬ n <:+: t := fun hI => hni (List.infix_cons_iff.mpr (Or.inr hI))
      simp [pyCountFuel, hp, ih t h2]

/-- `pyCount` is zero exactly when the needle has no occurrence. -/
theorem pyCount_eq_zero_of_not_infix {needle hay : String}
    (h : ¬ needle.data <:+: hay.data) : pyCount needle hay = 0 :=
  pyCountFuel_eq_zero _ _ h

/-- A prefix of `X ++ Y` either stays inside `X` or swallows all of `X`. -/
theorem prefix_append_cases {α : Type} {n X Y : List α} (h : n <+: X ++ Y) :
    n <+: X ∨ ∃ y, n = X ++ y ∧ y <+: Y := by
  rcases Nat.le_total n.length X.length with hle | hle
  · exact Or.inl (List.prefix_of_prefix_length_le h (List.prefix_append X Y) hle)
  · have hXn : X <+: n := List.prefix_of_prefix_length_le (List.prefix_append X Y) h hle
    obtain ⟨y, rfl⟩ := hXn
    refine Or.inr ⟨y, rfl, ?_⟩
    obtain ⟨t, ht⟩ := h
    rw [List.append_assoc] at ht
    exact ⟨t, List.append_cancel_left ht⟩

/-- A suffix of `X ++ Y` either stays inside `Y` or swallows all of `Y`. -/
theorem suffix_append_cases {α : Type} {t X Y : List α} (h : t <:+ X ++ Y) :
    t <:+ Y ∨ ∃ x, t = x ++ Y ∧ x <:+ X := by
  have h' : t.reverse <+: Y.reverse ++ X.reverse := by
    rw [← List.reverse_append]
    exact List.reverse_prefix.mpr h
  rcases prefix_append_cases h' with h1 | ⟨y, hy, hyX⟩
  · exact Or.inl ( List.reverse_prefix.mp h1)
  · right
    refine ⟨y.reverse, ?_, ?_⟩
    · have := congrArg List.reverse hy
      simpa using this
    · have := List.reverse_suffix.mpr hyX
      rwa [List.reverse_reverse] at this

/-! ### Claim C4: the name validator -/

/-- What the Python pattern-match actually accepts, stated declaratively: a
nonempty run of allowed characters, optionally followed by one trailing
newline (the `$`-before-final-newline behaviour of Python `re`). -/
def specNameAccepted (s : String) : Prop :=
  (s.data ≠ [] ∧ ∀ c ∈ s.data, allowedChar c) ∨
    (∃ t : List Char, t ≠ [] ∧ (∀ c ∈ t, allowedChar c) ∧ s.data = t ++ ['\n'])

/-- The Boolean matcher agrees with the declarative description. -/
theorem reNameMatch_iff (s : String) : reNameMatch s = true ↔ specNameAccepted s := by
  have hsplit : reNameMatch s = true ↔
      ((s.data ≠ [] ∧ ∀ c ∈ s.data, allowedChar c) ∨
       (s.data.getLast? = some '\n' ∧ s.data.dropLast ≠ [] ∧ ∀ c ∈ s.data.dropLast, allowedChar c)) := by
    unfold reNameMatch
    simp [List.all_eq_true, List.isEmpty_iff, and_assoc]
  rw [hsplit]
  unfold specNameAccepted
  constructor
  · rintro (h1 | ⟨hlast, hne, hall⟩)
    · exact Or.inl h1
    · have hnil : s.data ≠ [] := by
        intro h
        rw [h] at hlast
        simp at hlast
      refine Or.inr ⟨s.data.dropLast, hne, hall, ?_⟩
      have hcat := List.dropLast_concat_getLast hnil
      rw [List.getLast?_eq_getLast s.data hnil] at hlast
      have hl : s.data.getLast hnil = '\n' := by simpa using hlast
      conv_lhs => rw [← hcat]
      rw [hl]
  · rintro (h1 | ⟨t, ht, hall, heq⟩)
    · exact Or.inl h1
    · refine Or.inr ⟨?_, ?_, ?_⟩
      · rw [heq]; exact List.getLast?_concat t
      · rw [heq]; simpa [List.dropLast_concat] using ht
      · rw [heq]; simpa [List.dropLast_concat] using hall

/-- Claim C4 (amended): `validate_name` returns its input unchanged exactly
for the strings `specNameAccepted` describes — a nonempty run of letters,
digits, hyphens and underscores, optionally followed by ONE trailing newline
(an artefact of Python's `$` anchor under `re.match`); every other string,
the empty string included, produces a `ValueError`. -/
theorem c4_validate_name_amended (s p : String) :
    (validate_name s p = .ok s ↔ specNameAccepted s) ∧
    (validate_name s p = .ok s ∨ ∃ msg, validate_name s p = .error msg) := by
  by_cases h0 : s = ""
  · subst h0
    have herr : validate_name "" p = .error (p ++ " cannot be empty") := rfl
    refine ⟨⟨fun h => ?_, fun h => ?_⟩, Or.inr ⟨_, herr⟩⟩
    · rw [herr] at h
      exact Except.noConfusion h
    · rcases h with ⟨hne, _⟩ | ⟨t, ht, _, heq⟩
      · exact absurd rfl hne
      · exact absurd heq (by simp)
  · cases hm : reNameMatch s with
    | true =>
      have hok : validate_name s p = .ok s := by
        simp [validate_name, h0, hm]
      exact ⟨by simp [hok, (reNameMatch_iff s).mp hm], Or.inl hok⟩
    | false =>
      have herr : validate_name s p =
          .error ("Invalid " ++ p ++ ": only alphanumeric, hyphens, underscores allowed") := by
        simp [validate_name, h0, hm]
      refine ⟨⟨fun h => ?_, fun h => ?_⟩, Or.inr ⟨_, herr⟩⟩
      · rw [herr] at h
        exact Except.noConfusion h
      · have := (reNameMatch_iff s).mpr h
        rw [hm] at this
        exact Bool.noConfusion this

/-- Claim C4 (counterexample): `"abc\n"` contains a character outside the
allowed class, yet `validate_name` accepts it and returns it unchanged —
refuting "raises a validation error for every other non-empty string". -/
theorem c4_counterexample :
    validate_name "abc\n" "name" = .ok "abc\n" ∧
    '\n' ∈ "abc\n".data ∧ allowedChar '\n' = false :=
  ⟨rfl, by decide, rfl⟩

/-! ### Claims C1/C2/C8: concrete environments for search_plays -/

/-- A corpus listing with the single corpus `shake`, which has no plays. -/
def envShake : Env :=
  { corpora := .ok [{ name := some "shake" }]
    corpus := fun c => if c = "shake" then .ok { plays := [] } else .error "404"
    characters := fun _ _ => .error "404"
    play := fun _ _ => .error "404"
    characterPlays := fun _ => .error "404" }

/-- Claim C1: calling `search_plays` with `corpus_name="sh"` scans the
matching corpus `shake`, and because line 323 re-assigns the `corpus_name`
parameter inside the loop, `filters_applied.corpus_name` comes back as
`"shake"` — not the caller-supplied `"sh"`. -/
theorem c1_filters_applied_leak :
    search_plays envShake { corpus_name := some "sh" } =
      .ok { count := 0, results := [], top_results := [],
            filters_applied :=
              { query := none, corpus_name := some "shake", character_name := none,
                country := none, language := none, author := none,
                year_range := none, gender_filter := none } } ∧
    (some "shake" : Option String) ≠ some "sh" :=
  ⟨by rfl, by decide⟩

/-- A play carrying none of the three year fields. -/
def playUndated : Play :=
  { name := some "undated-play", title := some "Mystery", subtitle := none,
    originalTitle := none, originalLanguage := none, writtenIn := none,
    printedIn := none, authors := [],
    yearNormalized := none, yearWritten := none, yearPrinted := none }

/-- A corpus whose only play is `playUndated`. -/
def envYear : Env :=
  { corpora := .ok [{ name := some "c" }]
    corpus := fun c => if c = "c" then .ok { plays := [playUndated] } else .error "404"
    characters := fun _ _ => .error "404"
    play := fun _ _ => .error "404"
    characterPlays := fun _ => .error "404" }

/-- Claim C2: the `or 0` chain of line 371 resolves a play with no year
fields to `0`, so any positive `year_from` bound EXCLUDES it — the play does
not pass the year filter unconditionally as the spec states; a play whose
first truthy year lies inside the bounds does pass. -/
theorem c2_year_filter_excludes_undated :
    yearFilterStep (some 1595) (some 1600) none none none = false ∧
    resolvedYear none none none = 0 ∧
    yearFilterStep (some 1595) (some 1600) (some 1598) none none = true ∧
    search_plays envYear { year_from := some 1595, year_to := some 1600 } =
      .ok { count := 0, results := [], top_results := [],
            filters_applied :=
              { query := none, corpus_name := some "c", character_name := none,
                country := none, language := none, author := none,
                year_range := some "1595-1600", gender_filter := none } } :=
  ⟨rfl, rfl, rfl, by rfl⟩

/-! ### Claim C3: the Wikidata resource performs no validation -/

/-- An environment that records that the upstream `character/{id}` endpoint
was reached, by echoing the id it was queried with. -/
def envWikidata : Env :=
  { corpora := .error "unused"
    corpus := fun _ => .error "unused"
    characters := fun _ _ => .error "unused"
    play := fun _ _ => .error "unused"
    characterPlays := fun wid => .ok [wid] }

/-- Claim C3: `get_plays_with_character` forwards ANY string — `"42"`, the
empty string, even a path-traversal payload — straight to the upstream
fetch and returns its payload, so no validation error is raised before the
network call; the spec-modelled `validate_wikidata_id` (present in the
repository's tests but not in `server.py`) would have rejected them all. -/
theorem c3_wikidata_unvalidated :
    get_plays_with_character envWikidata "42" = .ok ["42"] ∧
    get_plays_with_character envWikidata "" = .ok [""] ∧
    get_plays_with_character envWikidata "Q42/../../admin" = .ok ["Q42/../../admin"] ∧
    validate_wikidata_id "Q42" = .ok "Q42" ∧
    validate_wikidata_id "Q131578" = .ok "Q131578" ∧
    (validate_wikidata_id "Q").isOk = false ∧
    (validate_wikidata_id "42").isOk = false ∧
    (validate_wikidata_id "").isOk = false ∧
    (validate_wikidata_id "Q42/../../admin").isOk = false :=
  ⟨rfl, rfl, rfl, rfl, rfl, rfl, rfl, rfl, rfl⟩

/-! ### Claim C5: the ratio is never `None` -/

/-- Claim C5: the `dialogue_to_direction_ratio` of server.py lines 828-829 is
always a number — for a body with zero stage-direction headers (such as the
empty text reached when the plain-text fetch fails on the TEI path) the `or
1` fallback yields `0`, not `None` as the spec requires.  (No division error
can occur, but the `None` contract is violated.) -/
theorem c5_ratio_is_fallback_number :
    (∀ text : String, ratioDialogueDirection text ≠ none) ∧
    pyCount "\n\nSTAGE DIRECTIONS:" "" = 0 ∧
    ratioDialogueDirection "" = some 0 := by
  refine ⟨fun text => by simp [ratioDialogueDirection], rfl, ?_⟩
  unfold ratioDialogueDirection
  norm_num [show pyCount "\n\nDIALOGUE:" "" = 0 from rfl,
    show pyCount "\n\nSTAGE DIRECTIONS:" "" = 0 from rfl]

/-! ### Claim C6: blanket error containment of the accessors -/

/-- Claim C6: for every modelled handler, an upstream failure surfaces as the
single-key `{"error": e}` mapping (modelled `.error e`) — the `try/except`
wrapper converts the raised exception, nothing propagates. -/
theorem c6_handlers_contain_upstream_errors :
    (∀ (env : Env) (e : String), env.corpora = .error e → get_corpora env = .error e) ∧
    (∀ (env : Env) (cn : Option String) (c e : String),
      validate_opt_name cn "corpus_name" = .ok c → env.corpus c = .error e →
      get_corpus env cn = .error e) ∧
    (∀ (env : Env) (cn : Option String) (c e : String),
      validate_opt_name cn "corpus_name" = .ok c → env.corpus c = .error e →
      get_plays env cn = .error e) ∧
    (∀ (env : Env) (cn pn : Option String) (c p e : String),
      validate_opt_name cn "corpus_name" = .ok c → validate_opt_name pn "play_name" = .ok p →
      env.characters c p = .error e → get_characters env cn pn = .error e) ∧
    (∀ (env : Env) (cn pn : Option String) (c p e : String),
      validate_opt_name cn "corpus_name" = .ok c → validate_opt_name pn "play_name" = .ok p →
      env.play c p = .error e → get_play env cn pn = .error e) ∧
    (∀ (env : Env) (wid e : String), env.characterPlays wid = .error e →
      get_plays_with_character env wid = .error e) := by
  refine ⟨fun env e h => h, fun env cn c e hv he => ?_, fun env cn c e hv he => ?_,
    fun env cn pn c p e hv hp he => ?_, fun env cn pn c p e hv hp he => ?_,
    fun env wid e h => h⟩
  · simp [get_corpus, hv, he, Except.bind, Except.map, Bind.bind]
  · simp [get_plays, hv, he, Except.bind, Except.map, Bind.bind, Functor.map]
  · simp [get_characters, hv, hp, he, Except.bind, Except.map, Bind.bind]
  · simp [get_play, hv, hp, he, Except.bind, Except.map, Bind.bind]

/-- An upstream that is entirely down. -/
def env500 : Env :=
  { corpora := .error "HTTP 500"
    corpus := fun _ => .error "HTTP 500"
    characters := fun _ _ => .error "HTTP 500"
    play := fun _ _ => .error "HTTP 500"
    characterPlays := fun _ => .error "HTTP 500" }

/-- Witness for C6 at a concrete all-failing upstream. -/
theorem c6_handlers_contain_upstream_errors_witness :
    get_corpora env500 = .error "HTTP 500" ∧
    get_corpus env500 (some "shake") = .error "HTTP 500" ∧
    get_plays env500 (some "shake") = .error "HTTP 500" ∧
    get_characters env500 (some "shake") (some "hamlet") = .error "HTTP 500" ∧
    get_play env500 (some "shake") (some "hamlet") = .error "HTTP 500" ∧
    get_plays_with_character env500 "Q42" = .error "HTTP 500" :=
  ⟨c6_handlers_contain_upstream_errors.1 env500 "HTTP 500" rfl,
   c6_handlers_contain_upstream_errors.2.1 env500 (some "shake") "shake" "HTTP 500" rfl rfl,
   c6_handlers_contain_upstream_errors.2.2.1 env500 (some "shake") "shake" "HTTP 500" rfl rfl,
   c6_handlers_contain_upstream_errors.2.2.2.1 env500 (some "shake") (some "hamlet")
     "shake" "hamlet" "HTTP 500" rfl rfl rfl,
   c6_handlers_contain_upstream_errors.2.2.2.2.1 env500 (some "shake") (some "hamlet")
     "shake" "hamlet" "HTTP 500" rfl rfl rfl,
   c6_handlers_contain_upstream_errors.2.2.2.2.2 env500 "Q42" "HTTP 500" rfl⟩

/-! ### Claim C8: partial-failure granularity inside search_plays -/

/-- A cleared `is_match` stays cleared through the gender block. -/
theorem stepGender_false (env : Env) (a : SearchArgs) (cn : Option String) (play : Play) :
    stepGender env a cn play false = false := by
  unfold stepGender
  cases hg : a.gender_filter with
  | none => rfl
  | some g => simp

/-- A failed character fetch leaves the gender block inert. -/
theorem stepGender_of_characters_error (env : Env) (a : SearchArgs) (cn : Option String)
    (play : Play) (e : String) (m : Bool)
    (he : get_characters env cn play.name = .error e) :
    stepGender env a cn play m = m := by
  unfold stepGender
  cases hg : a.gender_filter with
  | none => rfl
  | some g =>
    rw [he]
    by_cases hc : (!(g == "") && m) = true
    · simp [hc]
    · simp [Bool.eq_false_iff.mpr hc]

/-- A failed character fetch clears `is_match` in the character-name block. -/
theorem stepCharacter_of_characters_error (env : Env) (a : SearchArgs) (cn : Option String)
    (play : Play) (e : String) (m : Bool)
    (ht : truthyStr a.character_name = true)
    (he : get_characters env cn play.name = .error e) :
    stepCharacter env a cn play m = false := by
  unfold stepCharacter
  cases hg : a.character_name with
  | none => rw [hg] at ht; exact Bool.noConfusion ht
  | some chn =>
    rw [hg] at ht
    simp [truthyStr] at ht
    cases m with
    | false => simp
    | true => simp [ht, he]

/-- Claim C8 (amended): a failed corpora listing aborts `search_plays` with
that error; once the listing succeeds the search always returns a success
payload; a corpus whose plays fetch fails contributes nothing except an
update of the shadowed `corpus_name` variable; a play whose character fetch
fails during a requested `character_name` check is counted as a non-match;
but a character-fetch failure during the `gender_filter` check leaves the
play's match status untouched (the play is KEPT, per the comment on line
424). -/
theorem c8_failure_granularity :
    (∀ (env : Env) (a : SearchArgs) (e : String),
      get_corpora env = .error e → search_plays env a = .error e) ∧
    (∀ (env : Env) (a : SearchArgs) (l : List Corpus),
      get_corpora env = .ok l → (search_plays env a).isOk = true) ∧
    (∀ (env : Env) (a : SearchArgs) (st : SearchState) (corpus : Corpus) (e : String),
      get_plays env corpus.name = .error e →
      processCorpus env a st corpus = { st with cnVar := corpus.name }) ∧
    (∀ (env : Env) (a : SearchArgs) (cn : Option String) (play : Play) (e : String),
      truthyStr a.character_name = true →
      get_characters env cn play.name = .error e →
      playIsMatch env a cn play = false) ∧
    (∀ (env : Env) (a : SearchArgs) (cn : Option String) (play : Play) (e : String) (m : Bool),
      get_characters env cn play.name = .error e →
      stepGender env a cn play m = m) := by
  refine ⟨fun env a e h => ?_, fun env a l h => ?_, fun env a st corpus e h => ?_,
    fun env a cn play e ht he => ?_, fun env a cn play e m he => ?_⟩
  · unfold search_plays
    rw [h]
  · unfold search_plays
    rw [h]
    rfl
  · unfold processCorpus
    rw [h]
  · unfold playIsMatch
    rw [stepCharacter_of_characters_error env a cn play e _ ht he]
    exact stepGender_false env a cn play
  · exact stepGender_of_characters_error env a cn play e m he

/-- A featureless play used in the failure-granularity scenarios. -/
def playPlain : Play :=
  { name := some "p", title := none, subtitle := none, originalTitle := none,
    originalLanguage := none, writtenIn := none, printedIn := none, authors := [],
    yearNormalized := none, yearWritten := none, yearPrinted := none }

/-- One corpus, one play, and a character endpoint that always fails. -/
def envGender : Env :=
  { corpora := .ok [{ name := some "c" }]
    corpus := fun c => if c = "c" then .ok { plays := [playPlain] } else .error "x"
    characters := fun _ _ => .error "boom"
    play := fun _ _ => .error "no"
    characterPlays := fun _ => .error "404" }

/-- Claim C8 (counterexample): with `gender_filter="balanced"` and a failing
character fetch, the play is NOT excluded — it comes back in `results` — so
the claim's "only that play is excluded (counted as a non-match)" is false
for the gender_filter check. -/
theorem c8_counterexample :
    search_plays envGender { gender_filter := some "balanced" } =
      .ok { count := 1, results := [(some "c", playPlain)], top_results := [],
            filters_applied :=
              { query := none, corpus_name := some "c", character_name := none,
                country := none, language := none, author := none,
                year_range := none, gender_filter := some "balanced" } } ∧
    get_characters envGender (some "c") playPlain.name = .error "boom" :=
  ⟨by rfl, rfl⟩

/-- An upstream whose corpora listing fails. -/
def envCorporaFail : Env :=
  { corpora := .error "corpora down"
    corpus := fun _ => .error "x"
    characters := fun _ _ => .error "x"
    play := fun _ _ => .error "x"
    characterPlays := fun _ => .error "x" }

/-- An upstream whose plays fetch fails for every corpus. -/
def envPlaysFail : Env :=
  { corpora := .ok [{ name := some "bad" }]
    corpus := fun _ => .error "plays down"
    characters := fun _ _ => .error "x"
    play := fun _ _ => .error "x"
    characterPlays := fun _ => .error "x" }

/-- Witness for C8 at concrete environments. -/
theorem c8_failure_granularity_witness :
    search_plays envCorporaFail {} = .error "corpora down" ∧
    (search_plays envGender { gender_filter := some "balanced" }).isOk = true ∧
    processCorpus envPlaysFail {} { results := [], detailed := [], cnVar := none }
        { name := some "bad" } =
      { results := [], detailed := [], cnVar := some "bad" } ∧
    playIsMatch envGender { character_name := some "x" } (some "c") playPlain = false ∧
    stepGender envGender { gender_filter := some "balanced" } (some "c") playPlain true = true :=
  ⟨c8_failure_granularity.1 envCorporaFail {} "corpora down" rfl,
   c8_failure_granularity.2.1 envGender { gender_filter := some "balanced" }
     [{ name := some "c" }] rfl,
   c8_failure_granularity.2.2.1 envPlaysFail {} _ { name := some "bad" } "plays down" rfl,
   c8_failure_granularity.2.2.2.1 envGender { character_name := some "x" }
     (some "c") playPlain "boom" rfl rfl,
   c8_failure_granularity.2.2.2.2 envGender { gender_filter := some "balanced" }
     (some "c") playPlain "boom" true rfl⟩

/-! ### Claim C9: prompt-template interpolation -/

/-- An infix occurrence survives appending on the right. -/
theorem infixExtendRight {α : Type} {a X : List α} (y : List α) (h : a <:+: X) :
    a <:+: X ++ y :=
  h.trans ( List.IsPrefix.isInfix (List.prefix_append X y))

/-- The second operand of an append is an infix of it. -/
theorem infixOfAppendRight {α : Type} (X a : List α) : a <:+: X ++ a :=
  List.IsSuffix.isInfix (List.suffix_append X a)

set_option maxRecDepth 8192 in
/-- Claim C9: the six f-string templates interpolate every identifier
argument verbatim (it occurs as a substring of the returned text), and the
returned string always exists (the functions are total); BUT
`character_tagging_analysis` with a falsy `play_name` returns the literal
fallback template in which the supplied `corpus_name` — here `"ger"` — does
not occur at all, because line 1030 replaces the interpolated f-string with a
plain string whose `{corpus_name}` placeholders are never formatted. -/
theorem c9_prompt_interpolation :
    (∀ cn pn : String,
      cn.data <:+: (analyze_play cn pn).data ∧ pn.data <:+: (analyze_play cn pn).data) ∧
    (∀ cn pn cid : String,
      cn.data <:+: (character_analysis cn pn cid).data ∧
      pn.data <:+: (character_analysis cn pn cid).data ∧
      cid.data <:+: (character_analysis cn pn cid).data) ∧
    (∀ cn pn : String,
      cn.data <:+: (network_analysis cn pn).data ∧ pn.data <:+: (network_analysis cn pn).data) ∧
    (∀ c1 p1 c2 p2 : String,
      c1.data <:+: (comparative_analysis c1 p1 c2 p2).data ∧
      p1.data <:+: (comparative_analysis c1 p1 c2 p2).data ∧
      c2.data <:+: (comparative_analysis c1 p1 c2 p2).data ∧
      p2.data <:+: (comparative_analysis c1 p1 c2 p2).data) ∧
    (∀ cn pn : String,
      cn.data <:+: (gender_analysis cn pn).data ∧ pn.data <:+: (gender_analysis cn pn).data) ∧
    (∀ cn pn : String,
      cn.data <:+: (historical_context cn pn).data ∧
      pn.data <:+: (historical_context cn pn).data) ∧
    ("ger".data <:+: (character_tagging_analysis "ger" (some "x")).data) ∧
    ¬ ("ger".data <:+: (character_tagging_analysis "ger" none).data) := by
  refine ⟨fun cn pn => ⟨?_, ?_⟩, fun cn pn cid => ⟨?_, ?_, ?_⟩, fun cn pn => ⟨?_, ?_⟩,
    fun c1 p1 c2 p2 => ⟨?_, ?_, ?_, ?_⟩, fun cn pn => ⟨?_, ?_⟩, fun cn pn => ⟨?_, ?_⟩,
    ?hpos, ?hneg⟩
  case hpos =>
    have h : pyInList "ger".data (character_tagging_analysis "ger" (some "x")).data = true := by rfl
    exact (pyInList_eq_true_iff _ _).mp h
  case hneg =>
    intro hI
    have h : pyInList "ger".data (character_tagging_analysis "ger" none).data = false := by rfl
    rw [← pyInList_eq_true_iff] at hI
    rw [h] at hI
    exact Bool.noConfusion hI
  all_goals simp only [analyze_play, character_analysis, network_analysis,
    comparative_analysis, gender_analysis, historical_context, String.data_append]
  all_goals repeat first
    | exact infixOfAppendRight _ _
    | apply infixExtendRight

/-! ### Claim C7: relation sorting and name resolution -/

/-- Folding the overwrite-on-match loop over characters none of which match
leaves the accumulator unchanged. -/
theorem resolveFold_no_match (cid : String) :
    ∀ (cs : List Character) (acc : Option String),
      (∀ c ∈ cs, (c.id == some cid) = false) →
      cs.foldl (fun acc c => if c.id == some cid then c.name else acc) acc = acc := by
  intro cs
  induction cs with
  | nil => intro acc _; rfl
  | cons c cs ih =>
    intro acc h
    have hc := h c (List.mem_cons_self c cs)
    rw [List.foldl_cons, if_neg (by simp [hc])]
    exact ih acc (fun c' hc' => h c' (List.mem_cons_of_mem c hc'))

/-- With pairwise-distinct character ids, the last-match fold of lines
548-554 (plus the `or` fallback) agrees with a first-match lookup (plus the
same fallback). -/
theorem displayName_resolve_eq_displaySpec (cid : String) :
    ∀ characters : List Character,
      (characters.filterMap Character.id).Nodup →
      displayName (resolveName characters cid) cid = displaySpec characters cid := by
  intro characters
  induction characters with
  | nil => intro _; rfl
  | cons c cs ih =>
    intro hnd
    cases hc : (c.id == some cid) with
    | true =>
      have hcid : c.id = some cid := by simpa using hc
      have hfm : (c :: cs).filterMap Character.id = cid :: cs.filterMap Character.id := by
        simp [List.filterMap_cons, hcid]
      rw [hfm] at hnd
      have hnomatch : ∀ c' ∈ cs, (c'.id == some cid) = false := by
        intro c' hc'
        cases hcx : (c'.id == some cid) with
        | false => rfl
        | true =>
          have hx : c'.id = some cid := by simpa using hcx
          have hmem : cid ∈ cs.filterMap Character.id :=
            List.mem_filterMap.mpr ⟨c', hc', hx⟩
          exact absurd hmem (List.nodup_cons.mp hnd).1
      have hres : resolveName (c :: cs) cid = c.name := by
        unfold resolveName
        rw [List.foldl_cons, if_pos (by simp [hcid])]
        exact resolveFold_no_match cid cs c.name hnomatch
      have hfind : displaySpec (c :: cs) cid = displayName c.name cid := by
        unfold displaySpec
        rw [List.find?_cons_of_pos _ (by simp [hcid])]
      rw [hres, hfind]
    | false =>
      have hstep : resolveName (c :: cs) cid = resolveName cs cid := by
        unfold resolveName
        rw [List.foldl_cons, if_neg (by simp [hc])]
      have hfind : displaySpec (c :: cs) cid = displaySpec cs cid := by
        unfold displaySpec
        rw [List.find?_cons_of_neg _ (by simp [hc])]
      have hnd' : (cs.filterMap Character.id).Nodup :=
        hnd.sublist (List.Sublist.filterMap _ (List.sublist_cons_self c cs))
      rw [hstep, hfind]
      exact ih hnd'

/-- Claim C7 (amended): with pairwise-distinct character ids, every entry of
`strongestRelations` is (a) part of a list sorted descending by weight, and
(b) labelled with the matching character's name whenever that id occurs in
the character list WITH a present, non-empty name — otherwise with the raw
id (the `or` fallback also fires on `None` or empty names, which is what
`displaySpec` captures). -/
theorem c7_relations_amended (rows : List (List String)) (characters : List Character)
    (hids : (characters.filterMap Character.id).Nodup) :
    (strongestRelations rows characters).Pairwise (fun a b => b.weight ≤ a.weight) ∧
    ∀ r ∈ strongestRelations rows characters,
      r.source = displaySpec characters r.source_id ∧
      r.target = displaySpec characters r.target_id := by
  constructor
  · have hs := @List.sorted_mergeSort RelationEdge
      (fun a b => decide (b.weight ≤ a.weight))
      (fun a b c hab hbc => by
        simp only [decide_eq_true_eq] at hab hbc ⊢
        exact le_trans hbc hab)
      (fun a b => by
        rcases le_total b.weight a.weight with h | h
        · simp [h]
        · simp [h])
      (relationsFromCsv rows characters)
    have hs' : (sortedRelations rows characters).Pairwise (fun a b => b.weight ≤ a.weight) := by
      unfold sortedRelations
      exact hs.imp (fun h => by simpa using h)
    exact hs'.sublist (List.take_sublist 10 _)
  · intro r hr
    have hr1 : r ∈ sortedRelations rows characters := by
      unfold strongestRelations at hr
      exact List.mem_of_mem_take hr
    have hr2 : r ∈ relationsFromCsv rows characters := by
      unfold sortedRelations at hr1
      exact (List.mergeSort_perm _ _).mem_iff.mp hr1
    unfold relationsFromCsv at hr2
    obtain ⟨row, _hrow, hmk⟩ := List.mem_filterMap.mp hr2
    rcases row with _ | ⟨src, _ | ⟨x1, _ | ⟨tgt, _ | ⟨w, rest⟩⟩⟩⟩
    · exact absurd hmk (by simp [mkRelationRow])
    · exact absurd hmk (by simp [mkRelationRow])
    · exact absurd hmk (by simp [mkRelationRow])
    · exact absurd hmk (by simp [mkRelationRow])
    · have hre : r = { source := displayName (resolveName characters src) src, source_id := src, target := displayName (resolveName characters tgt) tgt, target_id := tgt, weight := (pyIntParse w).getD 0 } := by
        have hmk' := hmk
        simp only [mkRelationRow, Option.some.injEq] at hmk'
        exact hmk'.symm
      rw [hre]
      exact ⟨displayName_resolve_eq_displaySpec src characters hids,
        displayName_resolve_eq_displaySpec tgt characters hids⟩

/-- A character list whose only entry has the empty string as name. -/
def charsEmptyName : List Character :=
  [{ id := some "a", name := some "", gender := none }]

/-- One CSV header row and one data row from character `a` to `b`. -/
def rowsOneEdge : List (List String) :=
  [["Source", "Type", "Target", "Weight"], ["a", "x", "b", "3"]]

/-- Claim C7 (counterexample): the id `"a"` occurs in the fetched character
list, yet the relation's `source` is the raw id `"a"`, not that character's
name `""` — the `source_name or source` fallback fires on empty names, so
"equals the name whenever that id occurs in the character list" is false. -/
theorem c7_counterexample :
    strongestRelations rowsOneEdge charsEmptyName =
      [{ source := "a", source_id := "a", target := "b", target_id := "b", weight := 3 }] ∧
    ({ id := some "a", name := some "", gender := none } : Character) ∈ charsEmptyName ∧
    ("a" : String) ≠ "" := by
  refine ⟨?_, by decide, by decide⟩
  have h : relationsFromCsv rowsOneEdge charsEmptyName =
      [{ source := "a", source_id := "a", target := "b", target_id := "b", weight := 3 }] := rfl
  unfold strongestRelations sortedRelations
  rw [h]
  simp

/-- A one-character list with a proper name. -/
def charsW : List Character :=
  [{ id := some "a", name := some "Alice", gender := none }]

/-- A header row plus one edge from `a` (resolved to Alice) to `b`. -/
def rowsW : List (List String) :=
  [["Source", "Type", "Target", "Weight"], ["a", "x", "b", "2"]]

/-- The relation record built from `rowsW`/`charsW`. -/
def edgeW : RelationEdge :=
  { source := "Alice", source_id := "a", target := "b", target_id := "b", weight := 2 }

/-- Witness for C7 at a concrete CSV and character list. -/
theorem c7_relations_amended_witness :
    (charsW.filterMap Character.id).Nodup ∧
    edgeW.source = displaySpec charsW edgeW.source_id ∧
    edgeW.target = displaySpec charsW edgeW.target_id := by
  have hmem : edgeW ∈ strongestRelations rowsW charsW := by
    have h : relationsFromCsv rowsW charsW = [edgeW] := rfl
    unfold strongestRelations sortedRelations
    rw [h]
    simp
  have hres := (c7_relations_amended rowsW charsW (by decide)).2 edgeW hmem
  exact ⟨by decide, hres.1, hres.2⟩

/-! ### Claim C10: when is the dialogue-header count zero? -/

/-- The counted needle `"\n\nDIALOGUE:"` (11 characters). -/
def hdrD : List Char := "\n\nDIALOGUE:".data

/-- The bare header `"DIALOGUE:"` (9 characters). -/
def hdrDcore : List Char := "DIALOGUE:".data

/-- The needle minus its first newline, `"\nDIALOGUE:"` (10 characters). -/
def hdrDnl : List Char := "\nDIALOGUE:".data

/-- The leading text `"DIALOGUE:\n\n"` of the synthesized full text. -/
def preA : List Char := "DIALOGUE:\n\n".data

/-- The separator `"\n\nSTAGE DIRECTIONS:\n\n"` (21 characters). -/
def sepB : List Char := "\n\nSTAGE DIRECTIONS:\n\n".data

/-- An infix of `X ++ Y` lies in `X`, lies in `Y`, or straddles the seam as a
nonempty suffix piece of `X` glued to a nonempty prefix piece of `Y`. -/
theorem infix_append_cases {α : Type} {n X Y : List α} (h : n <:+: X ++ Y) :
    n <:+: X ∨ n <:+: Y ∨
      ∃ x y, n = x ++ y ∧ x ≠ [] ∧ y ≠ [] ∧ x <:+ X ∧ y <+: Y := by
  obtain ⟨t, hpre, hsuf⟩ := List.infix_iff_prefix_suffix.mp h
  rcases suffix_append_cases hsuf with hY | ⟨x, rfl, hxX⟩
  · exact Or.inr (Or.inl (List.infix_iff_prefix_suffix.mpr ⟨t, hpre, hY⟩))
  · rcases prefix_append_cases hpre with hnx | ⟨y, rfl, hyY⟩
    · exact Or.inl (List.infix_iff_prefix_suffix.mpr ⟨x, hnx, hxX⟩)
    · by_cases hx0 : x = []
      · subst hx0
        exact Or.inr (Or.inl ( List.IsPrefix.isInfix (by simpa using hyY)))
      · by_cases hy0 : y = []
        · subst hy0
          exact Or.inl ( List.IsSuffix.isInfix (by simpa using hxX))
        · exact Or.inr (Or.inr ⟨x, y, rfl, hx0, hy0, hxX, hyY⟩)

/-- Head of a dropped list is indexing. -/
theorem head?_of_drop {α : Type} (l : List α) (m : Nat) : (l.drop m).head? = l[m]? := by
  rw [List.head?_eq_getElem?, List.getElem?_drop]
  simp

/-- A nonempty prefix of `sepB ++ S` starts with a newline. -/
theorem head_of_prefix_sepB {y S : List Char} (h : y <+: sepB ++ S) (hy : y ≠ []) :
    y.head? = some '\x0a' := by
  have := head?_eq_of_prefix h hy
  rw [← this]
  rfl

/-- `"\nDIALOGUE:"` is never a prefix of `sepB ++ S`: it is too short to
swallow `sepB` and it is not a prefix of `sepB` itself. -/
theorem hdrDnl_not_prefix_sepB_append (S : List Char) : ¬ hdrDnl <+: sepB ++ S := by
  intro h
  rcases prefix_append_cases h with hp | ⟨z, hz, _⟩
  · exact absurd hp (by decide)
  · have hlen := congrArg List.length hz
    have h10 : hdrDnl.length = 10 := rfl
    have h21 : sepB.length = 21 := rfl
    rw [h10, List.length_append, h21] at hlen
    omega

/-- Splitting `hdrD = x ++ y` with both parts nonempty pins `x`/`y` to
`take`/`drop` at a cut strictly between 1 and 10. -/
theorem hdrD_split_facts {x y : List Char} (hxy : hdrD = x ++ y) (hx0 : x ≠ []) (hy0 : y ≠ []) :
    x = hdrD.take x.length ∧ y = hdrD.drop x.length ∧ 1 ≤ x.length ∧ x.length < 11 := by
  refine ⟨?_, ?_, ?_, ?_⟩
  · rw [hxy, List.take_left]
  · rw [hxy, List.drop_left]
  · exact List.length_pos.mpr hx0
  · have hlen := congrArg List.length hxy
    have h11 : hdrD.length = 11 := rfl
    rw [h11, List.length_append] at hlen
    have hy1 : 0 < y.length := List.length_pos.mpr hy0
    omega

/-- The core of claim C10: if neither upstream body contains the counted
header `"\n\nDIALOGUE:"`, and neither body begins with `"DIALOGUE:"` or
`"\nDIALOGUE:"` (which would complete the newlines supplied by the
synthesized text around it), then the assembled full text contains no
occurrence of the counted header at all. -/
theorem no_dialogue_header_occurrence (D S : List Char)
    (hD : ¬ hdrD <:+: D) (hS : ¬ hdrD <:+: S)
    (hD1 : ¬ hdrDcore <+: D) (hD2 : ¬ hdrDnl <+: D)
    (hS1 : ¬ hdrDcore <+: S) (hS2 : ¬ hdrDnl <+: S) :
    ¬ hdrD <:+: preA ++ (D ++ (sepB ++ S)) := by
  have takeA : ∀ m, m < 11 → hdrD.take m <:+ preA → m = 0 ∨ m = 1 ∨ m = 2 := by decide
  have takeB : ∀ m, m < 11 → hdrD.take m <:+ sepB → m = 0 ∨ m = 1 ∨ m = 2 := by decide
  have dropD : ∀ m, m < 11 → 2 ≤ m → ¬(hdrD[m]? = some '\x0a') := by decide
  have dropDnl : ∀ k, k < 10 → 1 ≤ k → ¬(hdrDnl[k]? = some '\x0a') := by decide
  have dropDcore : ∀ k, k < 9 → ¬(hdrDcore[k]? = some '\x0a') := by decide
  intro h
  rcases infix_append_cases h with hA | hRest | ⟨x, y, hxy, hx0, hy0, hxA, hyRest⟩
  · exact absurd hA (by decide)
  · rcases infix_append_cases hRest with hInD | hBS | ⟨x, y, hxy, hx0, hy0, hxD, hyBS⟩
    · exact hD hInD
    · rcases infix_append_cases hBS with hInB | hInS | ⟨x, y, hxy, hx0, hy0, hxB, hyS⟩
      · exact absurd hInB (by decide)
      · exact hS hInS
      · obtain ⟨hx, hy, hm1, hm2⟩ := hdrD_split_facts hxy hx0 hy0
        rcases takeB x.length hm2 (by rw [← hx]; exact hxB) with h0 | h1 | h2
        · omega
        · apply hS2
          have hyv : y = hdrDnl := by rw [hy, h1]; rfl
          rwa [hyv] at hyS
        · apply hS1
          have hyv : y = hdrDcore := by rw [hy, h2]; rfl
          rwa [hyv] at hyS
    · obtain ⟨hx, hy, hm1, hm2⟩ := hdrD_split_facts hxy hx0 hy0
      by_cases hm : x.length = 1
      · have hyv : y = hdrDnl := by rw [hy, hm]; rfl
        exact hdrDnl_not_prefix_sepB_append S (by rw [← hyv]; exact hyBS)
      · have hge : 2 ≤ x.length := by omega
        have hhead := head_of_prefix_sepB hyBS hy0
        rw [hy, head?_of_drop] at hhead
        exact dropD x.length hm2 hge hhead
  · obtain ⟨hx, hy, hm1, hm2⟩ := hdrD_split_facts hxy hx0 hy0
    rcases takeA x.length hm2 (by rw [← hx]; exact hxA) with h0 | h1 | h2
    · omega
    · have hyv : y = hdrDnl := by rw [hy, h1]; rfl
      rw [hyv] at hyRest
      rcases prefix_append_cases hyRest with hp | ⟨z, hz, hzBS⟩
      · exact hD2 hp
      · have hzv : z = hdrDnl.drop D.length := by rw [hz, List.drop_left]
        by_cases hz0 : z = []
        · apply hD2
          rw [hz0, List.append_nil] at hz
          rw [← hz]
        · have hk2 : D.length < 10 := by
            have hlen := congrArg List.length hz
            have h10 : hdrDnl.length = 10 := rfl
            rw [h10, List.length_append] at hlen
            have hzp : 0 < z.length := List.length_pos.mpr hz0
            omega
          by_cases hk0 : D.length = 0
          · apply hdrDnl_not_prefix_sepB_append S
            have hzv2 : z = hdrDnl := by rw [hzv, hk0]; rfl
            rwa [hzv2] at hzBS
          · have hk1 : 1 ≤ D.length := by omega
            have hhead := head_of_prefix_sepB hzBS hz0
            rw [hzv, head?_of_drop] at hhead
            exact dropDnl D.length hk2 hk1 hhead
    · have hyv : y = hdrDcore := by rw [hy, h2]; rfl
      rw [hyv] at hyRest
      rcases prefix_append_cases hyRest with hp | ⟨z, hz, hzBS⟩
      · exact hD1 hp
      · have hzv : z = hdrDcore.drop D.length := by rw [hz, List.drop_left]
        by_cases hz0 : z = []
        · apply hD1
          rw [hz0, List.append_nil] at hz
          rw [← hz]
        · have hk2 : D.length < 9 := by
            have hlen := congrArg List.length hz
            have h9 : hdrDcore.length = 9 := rfl
            rw [h9, List.length_append] at hlen
            have hzp : 0 < z.length := List.length_pos.mpr hz0
            omega
          have hhead := head_of_prefix_sepB hzBS hz0
          rw [hzv, head?_of_drop] at hhead
          exact dropDcore D.length hk2 hhead

/-- Claim C10 (amended): if neither upstream body contains `"\n\nDIALOGUE:"`
AND neither body begins with `"DIALOGUE:"` or `"\nDIALOGUE:"`, then
`analyze_full_text`'s ratio over the synthesized full text is exactly 0 (the
numerator count is 0 and the denominator is coerced to at least 1). -/
theorem c10_ratio_zero_amended (D S : String)
    (hD : ¬ hdrD <:+: D.data) (hS : ¬ hdrD <:+: S.data)
    (hD1 : ¬ hdrDcore <+: D.data) (hD2 : ¬ hdrDnl <+: D.data)
    (hS1 : ¬ hdrDcore <+: S.data) (hS2 : ¬ hdrDnl <+: S.data) :
    ratioDialogueDirection (assembleFullText D S) = some 0 := by
  have hshape : (assembleFullText D S).data = preA ++ (D.data ++ (sepB ++ S.data)) := by
    simp [assembleFullText, String.data_append, preA, sepB, List.append_assoc]
  have hnum : pyCount "\n\nDIALOGUE:" (assembleFullText D S) = 0 := by
    apply pyCount_eq_zero_of_not_infix
    rw [hshape]
    exact no_dialogue_header_occurrence D.data S.data hD hS hD1 hD2 hS1 hS2
  unfold ratioDialogueDirection
  rw [hnum]
  simp

/-- Witness for C10 at concrete upstream bodies. -/
theorem c10_ratio_zero_amended_witness :
    ratioDialogueDirection (assembleFullText "hello" "world") = some 0 :=
  c10_ratio_zero_amended "hello" "world" (by decide) (by decide) (by decide)
    (by decide) (by decide) (by decide)

/-- Claim C10 (counterexample): a spoken-text body beginning with
`"DIALOGUE:"` completes the two newlines of the synthesized prefix, so the
numerator is 1 and the ratio is 1 — even though neither upstream body
contains `"\n\nDIALOGUE:"`, refuting the claim that the ratio is always 0
under that hypothesis alone. -/
theorem c10_counterexample :
    ¬ (hdrD <:+: "DIALOGUE: hi".data) ∧
    ¬ (hdrD <:+: "".data) ∧
    ratioDialogueDirection (assembleFullText "DIALOGUE: hi" "") = some 1 := by
  refine ⟨by decide, by decide, ?_⟩
  unfold ratioDialogueDirection
  norm_num [show pyCount "\n\nDIALOGUE:" (assembleFullText "DIALOGUE: hi" "") = 1 from rfl,
    show pyCount "\n\nSTAGE DIRECTIONS:" (assembleFullText "DIALOGUE: hi" "") = 1 from rfl]
